import Mathlib

/-!
Verification of the schema-discovery and field-harmonization core of the
inspire-austria repository, as a shallow embedding in Lean 4.

The embedding follows the Python sources:
  - fetch_schemas.py   (extract_fields_from_sample, parse_capabilities,
                        determine_inspire_theme)
  - inspect_schemas.py (update_service_status, discover_ogc_api_fields)
  - field_mappings.py  (lookup_canonical_field)
  - server.py          (handle_combine: common-field threshold and
                        missing-province computation)

Python strings are modelled as Lean String; the behaviour of str.lower,
str.strip, `in` (substring test) and str.startswith is reproduced by the
pyLower / pyStrip / containsSeq / startsSeq functions below for the ASCII
inputs that the program's fixed patterns use.  The XML tree produced by
xml.etree.ElementTree.fromstring is modelled by the XmlElem inductive; the
parser itself is Python stdlib (not repository code) and is passed as a
function argument of type String → Option XmlElem, where none models an
ET.ParseError being raised.
-/

/-- ASCII lower-casing of a single character, the behaviour of Python
str.lower and SQLite LOWER on the ASCII range (all pattern constants of
the program are ASCII). -/
def lowerChar (c : Char) : Char :=
  if 'A' ≤ c && c ≤ 'Z' then Char.ofNat (c.toNat + 32) else c

/-- Python str.lower, restricted to the ASCII behaviour. -/
def pyLower (s : String) : String := ⟨s.data.map lowerChar⟩

/-- The six ASCII whitespace characters stripped by Python str.strip. -/
def pyIsSpace (c : Char) : Bool :=
  c == ' ' || c == '\t' || c == '\n' || c == '\r' || c == '\x0b' || c == '\x0c'

/-- Python str.strip on the character list: drop whitespace from both ends. -/
def pyStripChars (cs : List Char) : List Char :=
  ((cs.dropWhile pyIsSpace).reverse.dropWhile pyIsSpace).reverse

/-- Python str.strip. -/
def pyStrip (s : String) : String := ⟨pyStripChars s.data⟩

/-- Python `sub.isPrefix of s` test, i.e. s.startswith(sub), on char lists. -/
def startsSeq : List Char → List Char → Bool
  | [], _ => true
  | _ :: _, [] => false
  | p :: ps, c :: cs => p == c && startsSeq ps cs

/-- Python `sub in s` substring test on char lists (first argument is the
string searched, second the substring). -/
def containsSeq (s sub : List Char) : Bool :=
  startsSeq sub s ||
    (match s with
     | [] => false
     | _ :: t => containsSeq t sub)

/-- One or more decimal digits (the regex fragment for a digit run). -/
def digits1 (cs : List Char) : Bool := !cs.isEmpty && cs.all Char.isDigit

/-- Drop one leading minus sign if present (the regex fragment -?). -/
def dropSign (cs : List Char) : List Char :=
  match cs with
  | [] => []
  | c :: t => if c == '-' then t else c :: t

/-- re.match of the integer pattern from fetch_schemas.py line 245: an
optional minus followed by one or more digits, spanning the whole text. -/
def intLit (cs : List Char) : Bool := digits1 (dropSign cs)

/-- re.match of the decimal pattern from fetch_schemas.py line 247: an
optional minus, digits, one dot, digits, spanning the whole text. -/
def decLit (cs : List Char) : Bool :=
  let t := dropSign cs
  let a := t.takeWhile Char.isDigit
  let r := t.dropWhile Char.isDigit
  match r with
  | c :: b => c == '.' && (!a.isEmpty && digits1 b)
  | [] => false

/-- re.match of the date pattern from fetch_schemas.py line 249: the text
starts with four digits, a dash, two digits, a dash, two digits (the rest
of the text is unconstrained because the pattern is unanchored at the end). -/
def dateStartB : List Char → Bool
  | a :: b :: c :: d :: s1 :: e :: f :: s2 :: g :: h :: _ =>
      a.isDigit && b.isDigit && c.isDigit && d.isDigit && s1 == '-' &&
      e.isDigit && f.isDigit && s2 == '-' && g.isDigit && h.isDigit
  | _ => false

/-- The boolean check from fetch_schemas.py line 251: text.lower() is one
of 'true', 'false'. -/
def boolLit (s : String) : Bool := pyLower s == "true" || pyLower s == "false"

/-- The eight semantic types the extractor can assign to a field. -/
inductive FieldType where
  | string | integer | decimal | dateTime | boolean | geometry | complex | codelist
deriving DecidableEq, Repr

/-- Python truthiness of an optional string (None and the empty string are
falsy), used for `if child.text:` and `if href:`. -/
def textTruthy : Option String → Bool
  | some t => !(t == "")
  | none => false

/-- The Type Inferencer: lines 242-256 of fetch_schemas.py.  Given the raw
element text (child.text), the geometry flag and whether the element has
child elements, apply the ordered pattern checks on the stripped text:
integer, decimal, dateTime, boolean; with no usable text fall back to
geometry, then complex, then string. -/
def inferTextType (txt : Option String) (isGeom : Bool) (hasChildren : Bool) : FieldType :=
  if textTruthy txt then
    let s := pyStrip (txt.getD "")
    if intLit s.data then .integer
    else if decLit s.data then .decimal
    else if dateStartB s.data then .dateTime
    else if boolLit s then .boolean
    else .string
  else if isGeom then .geometry
  else if hasChildren then .complex
  else .string

/-- An element of the tree built by xml.etree.ElementTree.fromstring:
tag, attribute dictionary (association list with unique keys), text, and
the list of child elements.  Comments are not retained by the default
parser, so every tag is a string. -/
inductive XmlElem : Type where
  | mk : String → List (String × String) → Option String → List XmlElem → XmlElem

def XmlElem.tag : XmlElem → String
  | .mk t _ _ _ => t

def XmlElem.attribs : XmlElem → List (String × String)
  | .mk _ a _ _ => a

def XmlElem.text : XmlElem → Option String
  | .mk _ _ x _ => x

def XmlElem.children : XmlElem → List XmlElem
  | .mk _ _ _ cs => cs

mutual
/-- ElementTree's element.iter(): the element followed by all descendants
in document order. -/
def XmlElem.iterAll : XmlElem → List XmlElem
  | .mk t a x cs => .mk t a x cs :: iterListAll cs

def iterListAll : List XmlElem → List XmlElem
  | [] => []
  | c :: cs => c.iterAll ++ iterListAll cs
end

/-- dict.get on an attribute dictionary. -/
def attrGet (al : List (String × String)) (k : String) : Option String :=
  (al.find? (fun kv => kv.1 == k)).map (fun kv => kv.2)

/-- The closing-brace character, written by code point to keep tag strings
readable. -/
def rbraceChar : Char := Char.ofNat 125

def gmlIdAttr : String := "\x7bhttp://www.opengis.net/gml/3.2\x7did"

def xlinkHref : String := "\x7bhttp://www.w3.org/1999/xlink\x7dhref"

/-- Lines 226-231 of fetch_schemas.py: split a Clark-notation tag at the
last closing brace; the namespace part loses its leading opening brace
(ns[1:]), the local part is what follows the brace. -/
def nsAndLocal (tag : String) : String × String :=
  if containsSeq tag.data [rbraceChar] then
    let r := tag.data.reverse
    let lcl := (r.takeWhile (fun c => c != rbraceChar)).reverse
    let nsPart := (((r.dropWhile (fun c => c != rbraceChar)).tail).reverse).tail
    (⟨nsPart⟩, ⟨lcl⟩)
  else ("", tag)

def geomNameParts : List String := ["geometry", "geom", "shape", "position"]

def gmlGeomTags : List String := ["Point", "Polygon", "Surface", "Curve", "MultiSurface"]

/-- Lines 237-239 of fetch_schemas.py: a child is geometric when its local
name lower-cased contains one of the geometry words, or its full tag
contains one of the GML geometry type names. -/
def childIsGeom (c : XmlElem) (lcl : String) : Bool :=
  geomNameParts.any (fun g => containsSeq (pyLower lcl).data g.data) ||
    gmlGeomTags.any (fun g => containsSeq c.tag.data g.data)

/-- Python slice s[:n]. -/
def takeStr (n : Nat) (s : String) : String := ⟨s.data.take n⟩

/-- One discovered field: lines 263-269 of fetch_schemas.py. -/
structure FieldDesc where
  name : String
  ns_uri : String
  ftype : FieldType
  is_geometry : Bool
  sample_value : Option String
deriving DecidableEq, Repr

/-- Build the field record for one child element (fetch_schemas.py lines
237-269): geometry flag, inferred type, codelist override on a truthy
xlink:href attribute, truncated sample value. -/
def mkFieldDesc (c : XmlElem) (nsv lcl : String) : FieldDesc :=
  let is_geom := childIsGeom c lcl
  let base := inferTextType c.text is_geom (!c.children.isEmpty)
  let href := attrGet c.attribs xlinkHref
  let ftype := match href with
    | some h => if h == "" then base else FieldType.codelist
    | none => base
  { name := lcl
    ns_uri := nsv
    ftype := ftype
    is_geometry := is_geom
    sample_value :=
      match c.text with
      | some t =>
          if t == "" then
            match href with
            | some h => if h == "" then none else some (takeStr 100 h)
            | none => none
          else some (takeStr 100 t)
      | none =>
          match href with
          | some h => if h == "" then none else some (takeStr 100 h)
          | none => none }

/-- The child loop of extract_fields_from_sample (lines 225-269): enumerate
the feature's direct children, deduplicating by local name with a `seen`
set, first occurrence kept. -/
def collectFields : List XmlElem → List String → List FieldDesc
  | [], _ => []
  | c :: cs, seen =>
      let pr := nsAndLocal c.tag
      if pr.2 ∈ seen then collectFields cs seen
      else mkFieldDesc c pr.1 pr.2 :: collectFields cs (pr.2 :: seen)

/-- Lines 215-272 of fetch_schemas.py: scan the tree in document order,
skip container elements whose tag mentions FeatureCollection or member,
and process the children of the first element carrying a truthy gml id
attribute. -/
def extractFeatureFields (root : XmlElem) : List FieldDesc :=
  match root.iterAll.find? (fun e =>
      !(containsSeq e.tag.data "FeatureCollection".data) &&
      !(containsSeq e.tag.data "member".data) &&
      (match attrGet e.attribs gmlIdAttr with
       | some v => !(v == "")
       | none => false)) with
  | none => []
  | some fe => collectFields fe.children []

/-- extract_fields_from_sample (fetch_schemas.py lines 202-273).  The
xml_content argument is None or a string (falsy values return []); the
stdlib XML parser is a parameter, returning none where ET.fromstring
raises ET.ParseError, which the function catches and turns into []. -/
def extract_fields_from_sample (parse : String → Option XmlElem)
    (xml_content : Option String) (type_name : String) : List FieldDesc :=
  match xml_content with
  | none => []
  | some s =>
      if s == "" then []
      else
        match parse s with
        | none => []
        | some root => extractFeatureFields root

/-- The GeoJSON extraction path of discover_ogc_api_fields
(inspect_schemas.py lines 67-74): the field list is the keys of the first
feature's properties object, plus a synthetic geometry entry when the
feature has a truthy geometry member.  The keys of a JSON object are
unique among themselves. -/
def ogcFieldList (propKeys : List String) (hasGeometry : Bool) : List String :=
  let fields := propKeys
  if hasGeometry then fields ++ ["geometry"] else fields

/-- One entry of the feature-type list built by parse_capabilities. -/
structure FeatureTypeRec where
  name : String
  namespace_pfx : String
  local_name : String
  title : Option String
deriving DecidableEq, Repr

/-- Python name.split(with a colon, maxsplit 1): part before the first
colon and everything after it. -/
def splitFirstColon (s : String) : String × String :=
  (⟨s.data.takeWhile (fun c => c != ':')⟩, ⟨(s.data.dropWhile (fun c => c != ':')).tail⟩)

def wfs2FT : String := "\x7bhttp://www.opengis.net/wfs/2.0\x7dFeatureType"
def wfs2Name : String := "\x7bhttp://www.opengis.net/wfs/2.0\x7dName"
def wfs2Title : String := "\x7bhttp://www.opengis.net/wfs/2.0\x7dTitle"
def wfs11FT : String := "\x7bhttp://www.opengis.net/wfs\x7dFeatureType"
def wfs11Name : String := "\x7bhttp://www.opengis.net/wfs\x7dName"
def wfs11Title : String := "\x7bhttp://www.opengis.net/wfs\x7dTitle"

/-- ElementTree element.find: first direct child with the given tag. -/
def findChild (e : XmlElem) (t : String) : Option XmlElem :=
  e.children.find? (fun c => c.tag == t)

/-- ElementTree root.findall of a descendant tag: every subelement of the
root (at any depth, in document order) whose tag matches. -/
def findallDesc (root : XmlElem) (t : String) : List XmlElem :=
  (iterListAll root.children).filter (fun e => e.tag == t)

/-- One iteration of the FeatureType loop in parse_capabilities
(fetch_schemas.py lines 156-178 for WFS 2.0, 182-198 for WFS 1.1, the
latter without the unprefixed fallback).  A FeatureType whose Name element
exists but has no text makes the Python code evaluate a colon-membership
test on None, which raises an uncaught TypeError: that is the .error
outcome. -/
def parseFTStep (nameTag titleTag : String) (fallback : Bool) (ft : XmlElem) :
    Except Unit (Option FeatureTypeRec) :=
  let ne0 := findChild ft nameTag
  let te0 := findChild ft titleTag
  let p := if fallback && ne0.isNone
    then (findChild ft "Name", findChild ft "Title")
    else (ne0, te0)
  match p.1 with
  | none => .ok none
  | some nameEl =>
      match nameEl.text with
      | none => .error ()
      | some nm =>
          let pr := if containsSeq nm.data [':'] then splitFirstColon nm else ("", nm)
          .ok (some
            { name := nm
              namespace_pfx := pr.1
              local_name := pr.2
              title := match p.2 with
                | some te => te.text
                | none => some pr.2 })

/-- The FeatureType loop: collect the records, stopping with the raised
TypeError if one iteration raises. -/
def parseFTs (nameTag titleTag : String) (fallback : Bool) :
    List XmlElem → Except Unit (List FeatureTypeRec)
  | [] => .ok []
  | ft :: rest => do
      let r ← parseFTStep nameTag titleTag fallback ft
      let rs ← parseFTs nameTag titleTag fallback rest
      match r with
      | some fr => .ok (fr :: rs)
      | none => .ok rs

/-- parse_capabilities (fetch_schemas.py lines 143-200).  Falsy input and
an ET.ParseError both yield the empty list; the WFS 2.0 pass runs first
and the WFS 1.1 pass only when it found nothing.  The Except models the
uncaught TypeError described at parseFTStep. -/
def parse_capabilities (parse : String → Option XmlElem)
    (xml_content : Option String) : Except Unit (List FeatureTypeRec) :=
  match xml_content with
  | none => .ok []
  | some s =>
      if s == "" then .ok []
      else
        match parse s with
        | none => .ok []
        | some root => do
            let l2 ← parseFTs wfs2Name wfs2Title true (findallDesc root wfs2FT)
            if l2.isEmpty then
              parseFTs wfs11Name wfs11Title false (findallDesc root wfs11FT)
            else .ok l2

/-- The discovery result dict of inspect_schemas.py as far as
update_service_status reads it: only the fields key matters for the
service_status row (the other keys feed the unused details_json local). -/
structure DiscoveryResult where
  fields : List String
deriving DecidableEq, Repr

/-- One row of the service_status table. -/
structure ServiceStatusRow where
  dataset_id : String
  service_url : String
  service_type : String
  last_checked : String
  status : String
  sample_fields : Option (List String)
  error_message : Option String
  check_count : Nat
  success_count : Nat
deriving DecidableEq, Repr

/-- update_service_status (inspect_schemas.py lines 195-229), modelled as
the effect of the INSERT .. ON CONFLICT(service_url) DO UPDATE on the row
for this URL (old = none when no row exists yet).  sample_fields models
the JSON column: none is SQL NULL (a failed attempt), some l the encoded
list, so COALESCE(excluded.sample_fields, service_status.sample_fields)
keeps the old list exactly when the attempt failed. -/
def update_service_status (old : Option ServiceStatusRow)
    (dataset_id service_url service_type now : String)
    (result : Option DiscoveryResult) (error : Option String) : ServiceStatusRow :=
  let status := if result.isSome then "working"
    else if error == some "Timeout" then "timeout" else "error"
  let fields_json : Option (List String) := result.map (fun r => r.fields)
  let succ : Nat := if result.isSome then 1 else 0
  match old with
  | none =>
      { dataset_id := dataset_id
        service_url := service_url
        service_type := service_type
        last_checked := now
        status := status
        sample_fields := fields_json
        error_message := error
        check_count := 1
        success_count := succ }
  | some o =>
      { o with
        last_checked := now
        status := status
        sample_fields := match fields_json with
          | some l => some l
          | none => o.sample_fields
        error_message := error
        check_count := o.check_count + 1
        success_count := o.success_count + succ }

/-- The INSPIRE theme table of determine_inspire_theme (fetch_schemas.py
lines 277-296), in dict insertion order. -/
def themesList : List (String × String) :=
  [("am", "Area Management"), ("elu", "Existing Land Use"), ("lu", "Land Use"),
   ("plu", "Planned Land Use"), ("ps", "Protected Sites"), ("hy", "Hydrography"),
   ("ad", "Addresses"), ("cp", "Cadastral Parcels"), ("au", "Administrative Units"),
   ("gn", "Geographical Names"), ("el", "Elevation"), ("tn", "Transport Networks"),
   ("bu", "Buildings"), ("so", "Soil"), ("ge", "Geology"),
   ("ef", "Environmental Monitoring"), ("sr", "Species Distribution"),
   ("hb", "Habitats and Biotopes")]

/-- determine_inspire_theme (fetch_schemas.py lines 275-302): first table
entry whose key occurs in the lower-cased namespace or starts the
lower-cased type name followed by a colon. -/
def determine_inspire_theme (ns tn : String) : Option String :=
  (themesList.find? (fun pt =>
      containsSeq (pyLower ns).data pt.1.data ||
        startsSeq (pt.1 ++ ":").data (pyLower tn).data)).map (fun pt => pt.2)

/-- One row of the field_synonyms table joined with canonical_fields; only
the columns lookup_canonical_field touches are kept. -/
structure SynonymRow where
  canonical_id : String
  source : String
  field_name : String
deriving DecidableEq, Repr

/-- lookup_canonical_field (field_mappings.py lines 441-463): the SQL
WHERE LOWER(field_name) = LOWER(input) with fetchone, i.e. the first row
of the registry whose field name equals the input up to ASCII case. -/
def lookup_canonical_field (rows : List SynonymRow) (f : String) : Option SynonymRow :=
  rows.find? (fun r => pyLower r.field_name == pyLower f)

/-- The synonym rows the geometry entry of FIELD_MAPPINGS produces, in
populate_mappings insertion order (field_mappings.py lines 25-34). -/
def geometrySynonyms : List SynonymRow :=
  [⟨"geometry", "_inspire", "geometry"⟩, ⟨"geometry", "_inspire", "geometry2D"⟩,
   ⟨"geometry", "_inspire", "location"⟩, ⟨"geometry", "Oberösterreich", "Shape"⟩,
   ⟨"geometry", "Oberösterreich", "SHAPE"⟩, ⟨"geometry", "_arcgis", "Shape"⟩,
   ⟨"geometry", "_arcgis", "SHAPE"⟩, ⟨"geometry", "_arcgis", "geom"⟩]

/-- One row of the dataset aggregation in handle_combine (server.py lines
1026-1063): the split field set and the dataset's province column. -/
structure CombineRow where
  fields : List String
  province : Option String
deriving DecidableEq, Repr

/-- server.py line 1033 and 1037: datasets whose field set is non-empty. -/
def datasetsWithFields (rows : List CombineRow) : Nat :=
  (rows.filter (fun r => !r.fields.isEmpty)).length

/-- server.py lines 1038-1040: how many datasets (with fields) contain the
field; membership in the per-row set counts once per dataset. -/
def fieldCount (rows : List CombineRow) (f : String) : Nat :=
  (rows.filter (fun r => f ∈ r.fields)).length

/-- server.py line 1066: threshold = max(2, datasets_with_fields * 0.5).
The float product by 0.5 is exact for every feasible count, so the
rational value is the exact IEEE value the code compares against. -/
def commonThreshold (rows : List CombineRow) : ℚ :=
  max 2 ((datasetsWithFields rows : ℚ) * (1 / 2))

/-- server.py line 1067: a field is common when its occurrence count
reaches the threshold. -/
def isCommonField (rows : List CombineRow) (f : String) : Prop :=
  commonThreshold rows ≤ (fieldCount rows f : ℚ)

/-- server.py lines 1070-1071: the fixed nine-province set. -/
def allProvinces : List String :=
  ["Wien", "Niederösterreich", "Oberösterreich", "Salzburg", "Tirol",
   "Vorarlberg", "Kärnten", "Steiermark", "Burgenland"]

/-- server.py lines 1041-1042: provinces of the member datasets (falsy
province columns are skipped). -/
def provincesCovered (rows : List CombineRow) : List String :=
  rows.filterMap (fun r =>
    match r.province with
    | some p => if p == "" then none else some p
    | none => none)

/-- server.py line 1072: missing_provinces = all_provinces minus the
covered provinces. -/
def missing_provinces (rows : List CombineRow) : List String :=
  allProvinces.filter (fun p => decide (p ∉ provincesCovered rows))

/-! ## Auxiliary lemmas about the character-level helpers -/

theorem digit_not_space (c : Char) (h : c.isDigit = true) : pyIsSpace c = false := by
  cases hs : pyIsSpace c
  · rfl
  · exfalso
    simp only [pyIsSpace, Bool.or_eq_true, beq_iff_eq, or_assoc] at hs
    rcases hs with h1 | h1 | h1 | h1 | h1 | h1 <;> subst h1 <;> exact absurd h (by decide)

theorem digit_beq_dash (c : Char) (h : c.isDigit = true) : (c == '-') = false := by
  cases hd : (c == '-')
  · rfl
  · exfalso
    rw [beq_iff_eq] at hd
    subst hd
    exact absurd h (by decide)

theorem dropWhile_append_stop (p : Char → Bool) (l2 : List Char) (y : Char) (t : List Char)
    (hy : p y = false) :
    List.dropWhile p (l2 ++ y :: t) = List.dropWhile p l2 ++ y :: t := by
  induction l2 with
  | nil => simp [List.dropWhile_cons, hy]
  | cons x l ih =>
    cases hx : p x <;> simp [List.dropWhile_cons, hx, ih]

theorem pyStripChars_keeps (x : Char) (mid : List Char) (y : Char) (r : List Char)
    (hx : pyIsSpace x = false) (hy : pyIsSpace y = false) :
    ∃ r', pyStripChars (x :: (mid ++ y :: r)) = x :: (mid ++ y :: r') := by
  refine ⟨(List.dropWhile pyIsSpace r.reverse).reverse, ?_⟩
  unfold pyStripChars
  rw [List.dropWhile_cons, hx]
  have hrev : (x :: (mid ++ y :: r)).reverse = r.reverse ++ y :: (mid.reverse ++ [x]) := by
    simp
  rw [if_neg (by simp), hrev,
    dropWhile_append_stop pyIsSpace r.reverse y (mid.reverse ++ [x]) hy]
  simp

theorem dropWhile_eq_self_of_nospace (cs : List Char) (h : ∀ c ∈ cs, pyIsSpace c = false) :
    cs.dropWhile pyIsSpace = cs := by
  cases cs with
  | nil => rfl
  | cons x t => simp [List.dropWhile_cons, h x (List.mem_cons_self x t)]

theorem pyStripChars_eq_self (cs : List Char) (h : ∀ c ∈ cs, pyIsSpace c = false) :
    pyStripChars cs = cs := by
  unfold pyStripChars
  rw [dropWhile_eq_self_of_nospace cs h,
    dropWhile_eq_self_of_nospace cs.reverse (fun c hc => h c (List.mem_reverse.mp hc)),
    List.reverse_reverse]

theorem intLit_nospace (cs : List Char) (h : intLit cs = true) :
    ∀ c ∈ cs, pyIsSpace c = false := by
  intro c hc
  cases cs with
  | nil => simp [intLit, dropSign, digits1] at h
  | cons x t =>
    simp only [intLit, dropSign] at h
    rcases List.mem_cons.mp hc with rfl | hct
    · by_cases hx : (c == '-') = true
      · rw [beq_iff_eq] at hx
        subst hx
        decide
      · rw [if_neg hx] at h
        simp only [digits1, Bool.and_eq_true, List.all_eq_true] at h
        exact digit_not_space c (h.2 c (List.mem_cons_self c t))
    · by_cases hx : (x == '-') = true
      · rw [if_pos hx] at h
        simp only [digits1, Bool.and_eq_true, List.all_eq_true] at h
        exact digit_not_space c (h.2 c hct)
      · rw [if_neg hx] at h
        simp only [digits1, Bool.and_eq_true, List.all_eq_true] at h
        exact digit_not_space c (h.2 c (List.mem_cons_of_mem x hct))

theorem dateStartB_shape (cs : List Char) (hds : dateStartB cs = true) :
    ∃ a b c d e f g i rest, cs = a :: b :: c :: d :: '-' :: e :: f :: '-' :: g :: i :: rest ∧
      a.isDigit = true ∧ b.isDigit = true ∧ c.isDigit = true ∧ d.isDigit = true ∧
      e.isDigit = true ∧ f.isDigit = true ∧ g.isDigit = true ∧ i.isDigit = true := by
  unfold dateStartB at hds
  split at hds
  next a b c d s1 e f s2 g i rest =>
    simp only [Bool.and_eq_true, beq_iff_eq, and_assoc] at hds
    obtain ⟨ha, hb, hc, hd, hs1, he, hf, hs2, hg, hi⟩ := hds
    subst hs1
    subst hs2
    exact ⟨a, b, c, d, e, f, g, i, rest, rfl, ha, hb, hc, hd, he, hf, hg, hi⟩
  next => exact absurd hds (by simp)

/-! ## Claims C2 and C3: the Type Inferencer's pattern ordering -/

/-- Claim C2: every text sample whose content starts with the date pattern
of four digits, dash, two digits, dash, two digits is classified dateTime
by the Type Inferencer, never integer or decimal, even though the integer
and decimal patterns are checked first — neither full-match numeric
pattern can accept a text containing the two dashes. -/
theorem C2_dateTime (t : String) (isGeom hasChildren : Bool)
    (hds : dateStartB t.data = true) :
    inferTextType (some t) isGeom hasChildren = FieldType.dateTime := by
  obtain ⟨a, b, c, d, e, f, g, i, rest, hdata, ha, hb, hc, hd, he, hf, hg, hi⟩ :=
    dateStartB_shape t.data hds
  have hdata' : t.data = a :: ([b, c, d, '-', e, f, '-', g] ++ i :: rest) := by
    simpa using hdata
  obtain ⟨r', hstrip⟩ :=
    pyStripChars_keeps a [b, c, d, '-', e, f, '-', g] i rest
      (digit_not_space a ha) (digit_not_space i hi)
  have hs : (pyStrip t).data = a :: b :: c :: d :: '-' :: e :: f :: '-' :: g :: i :: r' := by
    show pyStripChars t.data = _
    rw [hdata', hstrip]
    simp
  have htr : textTruthy (some t) = true := by
    simp only [textTruthy, Bool.not_eq_true']
    rw [beq_eq_false_iff_ne]
    intro hemp
    rw [hemp] at hdata
    simp at hdata
  have hdashD : ('-' : Char).isDigit = false := by decide
  have hint : intLit (pyStrip t).data = false := by
    rw [hs]
    have hall : (a :: b :: c :: d :: '-' :: e :: f :: '-' :: g :: i :: r').all
        Char.isDigit = false := by
      cases hq : (a :: b :: c :: d :: '-' :: e :: f :: '-' :: g :: i :: r').all Char.isDigit
      · rfl
      · exact absurd ((List.all_eq_true.mp hq) '-' (by simp)) (by decide)
    simp [intLit, dropSign, digit_beq_dash a ha, digits1, hall]
  have hdec : decLit (pyStrip t).data = false := by
    rw [hs]
    simp [decLit, dropSign, digit_beq_dash a ha, List.dropWhile_cons, ha, hb, hc, hd, hdashD]
  have hdate : dateStartB (pyStrip t).data = true := by
    rw [hs]
    simp [dateStartB, ha, hb, hc, hd, he, hf, hg, hi]
  simp [inferTextType, htr, Option.getD, hint, hdec, hdate]

/-- Claim C2 witness at the concrete value 2024-01-01. -/
theorem C2_dateTime_witness :
    inferTextType (some "2024-01-01") false false = FieldType.dateTime :=
  C2_dateTime "2024-01-01" false false (by decide)

/-- Claim C3 (amended): text fully matching the optional-minus-digits
pattern is classified integer by the Type Inferencer, never decimal or
string; and the extractor classifies a child as a codelist reference when
it carries an xlink:href attribute with a truthy (non-empty) value.  The
original claim's clause that any element carrying the attribute is a
codelist reference fails for an empty href value (Python truthiness),
see the counterexample. -/
theorem C3_integer_and_codelist :
    (∀ (t : String) (isGeom hasChildren : Bool), intLit t.data = true →
        inferTextType (some t) isGeom hasChildren = FieldType.integer) ∧
    (∀ (c : XmlElem) (nsv lcl h : String), attrGet c.attribs xlinkHref = some h → h ≠ "" →
        (mkFieldDesc c nsv lcl).ftype = FieldType.codelist) := by
  constructor
  · intro t isGeom hasChildren h
    have hne : t.data ≠ [] := by
      intro hnil
      rw [intLit, hnil] at h
      simp [dropSign, digits1] at h
    have htr : textTruthy (some t) = true := by
      simp only [textTruthy, Bool.not_eq_true']
      rw [beq_eq_false_iff_ne]
      intro hemp
      subst hemp
      exact hne rfl
    have hstr : (pyStrip t).data = t.data :=
      pyStripChars_eq_self t.data (intLit_nospace t.data h)
    simp [inferTextType, htr, Option.getD, hstr, h]
  · intro c nsv lcl h h1 h2
    have h2' : (h == "") = false := beq_eq_false_iff_ne.mpr h2
    simp [mkFieldDesc, h1, h2']

/-- Claim C3 witness: a negative integer literal and a child carrying a
non-empty xlink:href. -/
theorem C3_integer_and_codelist_witness :
    inferTextType (some "-42") false false = FieldType.integer ∧
    (mkFieldDesc (XmlElem.mk "t" [(xlinkHref, "http")] (some "123") []) "" "t").ftype =
      FieldType.codelist :=
  ⟨C3_integer_and_codelist.1 "-42" false false (by decide),
   C3_integer_and_codelist.2 (XmlElem.mk "t" [(xlinkHref, "http")] (some "123") []) "" "t"
     "http" (by decide) (by decide)⟩

/-- Claim C3 counterexample: a child carrying an xlink:href attribute
whose value is the empty string is falsy in Python, so the integer type
inferred from its text stands and the codelist override does not fire —
the element carries the attribute yet is not classified as a codelist
reference. -/
theorem C3_counterexample :
    (mkFieldDesc (XmlElem.mk "t" [(xlinkHref, "")] (some "123") []) "" "t").ftype =
      FieldType.integer ∧
    attrGet (XmlElem.mk "t" [(xlinkHref, "")] (some "123") []).attribs xlinkHref = some "" ∧
    FieldType.integer ≠ FieldType.codelist := by
  refine ⟨by decide, by decide, by decide⟩

/-! ## Claims C8 and C9: extractor dedup and parser totality -/

theorem collectFields_spec (cs : List XmlElem) : ∀ seen : List String,
    ((collectFields cs seen).map (fun fd => fd.name)).Nodup ∧
    ∀ fd ∈ collectFields cs seen, fd.name ∉ seen := by
  induction cs with
  | nil =>
    intro seen
    refine ⟨by simp [collectFields], ?_⟩
    intro fd hfd
    simp [collectFields] at hfd
  | cons c cs ih =>
    intro seen
    by_cases hmem : (nsAndLocal c.tag).2 ∈ seen
    · simp only [collectFields]
      rw [if_pos hmem]
      exact ⟨(ih seen).1, fun fd hfd => (ih seen).2 fd hfd⟩
    · simp only [collectFields]
      rw [if_neg hmem]
      obtain ⟨ihn, ihs⟩ := ih ((nsAndLocal c.tag).2 :: seen)
      have hname : (mkFieldDesc c (nsAndLocal c.tag).1 (nsAndLocal c.tag).2).name
          = (nsAndLocal c.tag).2 := rfl
      constructor
      · rw [List.map_cons, List.nodup_cons]
        refine ⟨?_, ihn⟩
        rw [hname]
        intro hin
        rcases List.mem_map.mp hin with ⟨fd, hfd, hfe⟩
        exact (ihs fd hfd) (by rw [hfe]; exact List.mem_cons_self _ _)
      · intro fd hfd
        rcases List.mem_cons.mp hfd with rfl | h2
        · rw [hname]
          exact hmem
        · exact fun hin => (ihs fd h2) (List.mem_cons_of_mem _ hin)

theorem extractFeatureFields_nodup (root : XmlElem) :
    ((extractFeatureFields root).map (fun fd => fd.name)).Nodup := by
  unfold extractFeatureFields
  cases hf : root.iterAll.find? (fun e =>
      !(containsSeq e.tag.data "FeatureCollection".data) &&
      !(containsSeq e.tag.data "member".data) &&
      (match attrGet e.attribs gmlIdAttr with
       | some v => !(v == "")
       | none => false)) with
  | none => simp
  | some fe => exact (collectFields_spec fe.children []).1

/-- Claim C8 (amended): on the XML extraction path the field list never
repeats a local name (first occurrence wins), on every input; on the
GeoJSON path the list is duplicate-free provided no property key is
literally named geometry — the synthetic geometry entry is appended
without deduplication, see the counterexample. -/
theorem C8_field_uniqueness :
    (∀ (parse : String → Option XmlElem) (xml : Option String) (tn : String),
        ((extract_fields_from_sample parse xml tn).map (fun fd => fd.name)).Nodup) ∧
    (∀ (propKeys : List String) (hasGeometry : Bool), propKeys.Nodup →
        "geometry" ∉ propKeys → (ogcFieldList propKeys hasGeometry).Nodup) := by
  constructor
  · intro parse xml tn
    cases xml with
    | none => simp [extract_fields_from_sample]
    | some s =>
      simp only [extract_fields_from_sample]
      by_cases hs : (s == "") = true
      · rw [if_pos hs]
        simp
      · rw [if_neg hs]
        cases hp : parse s with
        | none => simp
        | some root => exact extractFeatureFields_nodup root
  · intro propKeys hasGeometry hnd hng
    unfold ogcFieldList
    cases hasGeometry with
    | false => simpa using hnd
    | true =>
      simp only [if_true]
      rw [List.nodup_append]
      refine ⟨hnd, by simp, ?_⟩
      intro x hx hx2
      have : x = "geometry" := by simpa using hx2
      subst this
      exact hng hx

/-- Claim C8 witness for the GeoJSON conjunct. -/
theorem C8_field_uniqueness_witness : (ogcFieldList ["a"] true).Nodup :=
  C8_field_uniqueness.2 ["a"] true (by decide) (by decide)

/-- Claim C8 counterexample: a GeoJSON feature whose properties object has
a key literally named geometry and which also carries a geometry object
yields a duplicated field name — uniqueness does not hold on the GeoJSON
path. -/
theorem C8_counterexample :
    ogcFieldList ["geometry"] true = ["geometry", "geometry"] ∧
    (["geometry"] : List String).Nodup ∧
    ¬ (ogcFieldList ["geometry"] true).Nodup := by
  refine ⟨rfl, by decide, ?_⟩
  intro h
  rw [show ogcFieldList ["geometry"] true = ["geometry", "geometry"] from rfl] at h
  simp at h

/-- The capabilities document (as parsed) that defeats the totality claim:
a root holding one WFS 2.0 FeatureType whose Name element has no text.
ET.fromstring applied to the corresponding well-formed document produces
exactly this tree, on which the Python loop evaluates a colon-membership
test on None and raises TypeError. -/
def badCapsTree : XmlElem :=
  .mk "root" [] none [.mk wfs2FT [] none [.mk wfs2Name [] none []]]

/-- Claim C9 (amended): both parsers return the empty list on falsy input
and on input the XML parser rejects; the sample-field extractor is total,
but the capabilities parser is not total on arbitrary text. -/
theorem C9_parser_totality (parse : String → Option XmlElem) (tn : String) (s : String)
    (h : s = "" ∨ parse s = none) :
    extract_fields_from_sample parse (some s) tn = [] ∧
    parse_capabilities parse (some s) = .ok [] ∧
    extract_fields_from_sample parse none tn = [] ∧
    parse_capabilities parse none = .ok [] := by
  refine ⟨?_, ?_, rfl, rfl⟩ <;>
    rcases h with rfl | hp
  · simp [extract_fields_from_sample]
  · simp only [extract_fields_from_sample]
    by_cases hs : (s == "") = true
    · rw [if_pos hs]
    · rw [if_neg hs, hp]
  · simp [parse_capabilities]
  · simp only [parse_capabilities]
    by_cases hs : (s == "") = true
    · rw [if_pos hs]
    · rw [if_neg hs, hp]

/-- Claim C9 witness. -/
theorem C9_parser_totality_witness :
    extract_fields_from_sample (fun _ => none) (some "") "t" = [] ∧
    parse_capabilities (fun _ => none) (some "") = .ok [] ∧
    extract_fields_from_sample (fun _ => none) none "t" = [] ∧
    parse_capabilities (fun _ => none) none = .ok [] :=
  C9_parser_totality (fun _ => none) "t" "" (Or.inl rfl)

/-- Claim C9 counterexample: on the document parsed as badCapsTree the
capabilities parser raises an uncaught TypeError (modelled as the error
outcome) instead of returning a list — it is not total on arbitrary
well-formed text input. -/
theorem C9_counterexample :
    parse_capabilities (fun _ => some badCapsTree) (some "caps") = .error () := by
  rfl

/-! ## Claims C1 and C4: the Service Status Tracker upsert -/

/-- Claim C1 (amended): the stored field list is kept unchanged by every
failing attempt (result None), and is replaced by exactly the produced
field list — possibly empty — by every succeeding attempt.  The original
claim that only a non-empty new list can replace the stored one fails,
because the SQL COALESCE tests NULL-ness, not emptiness: see the
counterexample. -/
theorem C1_field_list_replacement (o : ServiceStatusRow)
    (did url st now : String) (result : Option DiscoveryResult) (err : Option String) :
    (result = none →
      (update_service_status (some o) did url st now result err).sample_fields =
        o.sample_fields) ∧
    (∀ r, result = some r →
      (update_service_status (some o) did url st now result err).sample_fields =
        some r.fields) := by
  constructor
  · rintro rfl
    simp [update_service_status]
  · rintro r rfl
    simp [update_service_status]

/-- Claim C1 witness: a timeout attempt on an existing row keeps the
stored field list. -/
theorem C1_field_list_replacement_witness :
    (update_service_status
        (some (update_service_status none "d" "u" "WFS" "t0" (some ⟨["a"]⟩) none))
        "d" "u" "WFS" "t1" none (some "Timeout")).sample_fields =
      (update_service_status none "d" "u" "WFS" "t0" (some ⟨["a"]⟩) none).sample_fields :=
  (C1_field_list_replacement
      (update_service_status none "d" "u" "WFS" "t0" (some ⟨["a"]⟩) none)
      "d" "u" "WFS" "t1" none (some "Timeout")).1 rfl

/-- Claim C1 counterexample: a succeeding attempt whose discovered field
list is empty (a feature with an empty properties object) replaces a
previously stored non-empty field list by the empty list, so the stored
list is not replaced only by non-empty ones. -/
theorem C1_counterexample :
    ((update_service_status
        (some (update_service_status none "d" "u" "OGC-API" "t0" (some ⟨["a"]⟩) none))
        "d" "u" "OGC-API" "t1" (some ⟨[]⟩) none).sample_fields = some []) ∧
    ((update_service_status none "d" "u" "OGC-API" "t0"
        (some ⟨["a"]⟩) none).sample_fields = some ["a"]) ∧
    (DiscoveryResult.mk []).fields = [] ∧
    some ([] : List String) ≠ some ["a"] := by
  refine ⟨rfl, rfl, rfl, by decide⟩

/-- Claim C4: the recorded status is working exactly when a discovery
result is present, timeout when the attempt failed with the Timeout
error, error otherwise; check_count grows by one on every attempt and
success_count only on a working attempt (a fresh row starts from zero
counters). -/
theorem C4_status_and_counters (old : Option ServiceStatusRow)
    (did url st now : String) (result : Option DiscoveryResult) (err : Option String) :
    ((update_service_status old did url st now result err).status = "working" ↔
      result.isSome = true) ∧
    (result = none → err = some "Timeout" →
      (update_service_status old did url st now result err).status = "timeout") ∧
    (result = none → err ≠ some "Timeout" →
      (update_service_status old did url st now result err).status = "error") ∧
    ((update_service_status old did url st now result err).check_count =
      (match old with | none => 0 | some o => o.check_count) + 1) ∧
    ((update_service_status old did url st now result err).success_count =
      (match old with | none => 0 | some o => o.success_count) +
        if result.isSome then 1 else 0) := by
  have hstat : (update_service_status old did url st now result err).status =
      (if result.isSome then "working"
       else if err == some "Timeout" then "timeout" else "error") := by
    cases old <;> simp [update_service_status]
  refine ⟨?_, ?_, ?_, ?_, ?_⟩
  · rw [hstat]
    cases result with
    | none =>
      simp only [Option.isSome_none]
      by_cases herr : (err == some "Timeout") = true
      · rw [if_neg (by simp), if_pos herr]
        constructor
        · intro hq
          exact absurd hq (by decide)
        · intro hq
          exact absurd hq (by decide)
      · rw [if_neg (by simp), if_neg herr]
        constructor
        · intro hq
          exact absurd hq (by decide)
        · intro hq
          exact absurd hq (by decide)
    | some r => simp
  · rintro rfl herr
    subst herr
    rw [hstat]
    simp
  · rintro rfl herr
    rw [hstat]
    rw [if_neg (by simp), if_neg (fun hq => herr (beq_iff_eq.mp hq))]
  · cases old <;> simp [update_service_status]
  · cases old <;> simp [update_service_status]

/-- Claim C4 witness: timeout and error statuses at concrete failing
attempts. -/
theorem C4_status_and_counters_witness :
    (update_service_status none "d" "u" "WFS" "t" none (some "Timeout")).status = "timeout" ∧
    (update_service_status none "d" "u" "WFS" "t" none none).status = "error" :=
  ⟨(C4_status_and_counters none "d" "u" "WFS" "t" none (some "Timeout")).2.1 rfl rfl,
   (C4_status_and_counters none "d" "u" "WFS" "t" none none).2.2.1 rfl (by decide)⟩

/-! ## Claim C5: the common-field threshold of the Combination Analyzer -/

theorem isCommonField_iff (rows : List CombineRow) (f : String) :
    isCommonField rows f ↔ max 4 (datasetsWithFields rows) ≤ 2 * fieldCount rows f := by
  unfold isCommonField commonThreshold
  rw [max_le_iff, Nat.max_le]
  constructor
  · rintro ⟨h1, h2⟩
    have ha : 2 ≤ fieldCount rows f := by exact_mod_cast h1
    have hb : (datasetsWithFields rows : ℚ) ≤ 2 * (fieldCount rows f : ℚ) := by linarith
    have hb' : datasetsWithFields rows ≤ 2 * fieldCount rows f := by exact_mod_cast hb
    exact ⟨by omega, hb'⟩
  · rintro ⟨h1, h2⟩
    have ha : (4 : ℚ) ≤ 2 * (fieldCount rows f : ℚ) := by exact_mod_cast h1
    have hb : (datasetsWithFields rows : ℚ) ≤ 2 * (fieldCount rows f : ℚ) := by
      exact_mod_cast h2
    exact ⟨by linarith, by linarith⟩

/-- Claim C5: a field is common exactly when its occurrence count over
the datasets with any discovered fields reaches max(2, half that number)
— equivalently twice the count reaches max(4, that number); with four
such datasets a field occurring in exactly two is common and one
occurring in exactly one is not; with two datasets both must share the
field, a count of one is never common. -/
theorem C5_common_threshold :
    (∀ (rows : List CombineRow) (f : String),
        isCommonField rows f ↔
          max 4 (datasetsWithFields rows) ≤ 2 * fieldCount rows f) ∧
    isCommonField [⟨["f", "a"], none⟩, ⟨["f"], none⟩, ⟨["c"], none⟩, ⟨["d"], none⟩] "f" ∧
    ¬ isCommonField [⟨["f", "a"], none⟩, ⟨["f"], none⟩, ⟨["c"], none⟩, ⟨["d"], none⟩] "a" ∧
    isCommonField [⟨["f", "b"], none⟩, ⟨["f"], none⟩] "f" ∧
    ¬ isCommonField [⟨["f", "b"], none⟩, ⟨["f"], none⟩] "b" := by
  refine ⟨isCommonField_iff, ?_, ?_, ?_, ?_⟩
  · exact (isCommonField_iff _ _).mpr (by decide)
  · exact fun h => absurd ((isCommonField_iff _ _).mp h) (by decide)
  · exact (isCommonField_iff _ _).mpr (by decide)
  · exact fun h => absurd ((isCommonField_iff _ _).mp h) (by decide)

/-! ## Claim C6: case-insensitive canonical field lookup -/

/-- Claim C6: lookup succeeds exactly when some registered synonym equals
the queried name up to ASCII case; names equal up to case give identical
lookup results (so Shape, SHAPE and shape all resolve alike); on the
registry built from the geometry entry of FIELD_MAPPINGS all three
spellings resolve to the canonical id geometry. -/
theorem C6_lookup_case_insensitive :
    (∀ (rows : List SynonymRow) (f : String),
        (lookup_canonical_field rows f).isSome = true ↔
          ∃ r ∈ rows, pyLower r.field_name = pyLower f) ∧
    (∀ (rows : List SynonymRow) (f g : String), pyLower f = pyLower g →
        lookup_canonical_field rows f = lookup_canonical_field rows g) ∧
    ((lookup_canonical_field geometrySynonyms "Shape").map
        (fun r => r.canonical_id) = some "geometry") ∧
    ((lookup_canonical_field geometrySynonyms "SHAPE").map
        (fun r => r.canonical_id) = some "geometry") ∧
    ((lookup_canonical_field geometrySynonyms "shape").map
        (fun r => r.canonical_id) = some "geometry") := by
  refine ⟨?_, ?_, by decide, by decide, by decide⟩
  · intro rows f
    rw [lookup_canonical_field, List.find?_isSome]
    constructor
    · rintro ⟨r, hr, hp⟩
      exact ⟨r, hr, beq_iff_eq.mp hp⟩
    · rintro ⟨r, hr, hp⟩
      exact ⟨r, hr, beq_iff_eq.mpr hp⟩
  · intro rows f g h
    unfold lookup_canonical_field
    simp only [h]

/-- Claim C6 witness: names equal up to case give the same lookup. -/
theorem C6_lookup_case_insensitive_witness :
    lookup_canonical_field geometrySynonyms "Shape" =
      lookup_canonical_field geometrySynonyms "sHaPe" :=
  C6_lookup_case_insensitive.2.1 geometrySynonyms "Shape" "sHaPe" (by decide)

/-! ## Claim C7: missing provinces in the Combination Analyzer -/

/-- Claim C7: a province is missing exactly when it belongs to the fixed
nine-province set and is not covered by any member dataset; for datasets
covering only Wien and Tirol the missing set is exactly the remaining
seven provinces. -/
theorem C7_missing_provinces :
    (∀ (rows : List CombineRow) (p : String),
        p ∈ missing_provinces rows ↔
          p ∈ allProvinces ∧ p ∉ provincesCovered rows) ∧
    missing_provinces [⟨["x"], some "Wien"⟩, ⟨["y"], some "Tirol"⟩] =
      ["Niederösterreich", "Oberösterreich", "Salzburg", "Vorarlberg", "Kärnten",
       "Steiermark", "Burgenland"] := by
  refine ⟨?_, by decide⟩
  intro rows p
  simp [missing_provinces, List.mem_filter]

/-! ## Claim C10: INSPIRE-theme inference order and shadowing -/

theorem startsSeq_shape (p : Char) (ps s : List Char) (h : startsSeq (p :: ps) s = true) :
    ∃ t, s = p :: t ∧ startsSeq ps t = true := by
  cases s with
  | nil => simp [startsSeq] at h
  | cons c t =>
    rw [startsSeq] at h
    simp only [Bool.and_eq_true, beq_iff_eq] at h
    exact ⟨t, by rw [h.1], h.2⟩

theorem containsSeq_tail (s : List Char) (c : Char) (p : List Char)
    (h : containsSeq s (c :: p) = true) : containsSeq s p = true := by
  induction s with
  | nil => simp [containsSeq, startsSeq] at h
  | cons x t ih =>
    rw [containsSeq] at h ⊢
    simp only [Bool.or_eq_true] at h ⊢
    rcases h with h | h
    · rw [startsSeq] at h
      simp only [Bool.and_eq_true] at h
      right
      rw [containsSeq.eq_def]
      simp [h.2]
    · exact Or.inr (ih h)

theorem containsSeq_plu_lu (s : List Char) (h : containsSeq s "plu".data = true) :
    containsSeq s "lu".data = true := by
  have hd : "plu".data = 'p' :: "lu".data := by decide
  rw [hd] at h
  exact containsSeq_tail s 'p' "lu".data h

/-- Claim C10 (amended): whenever the lower-cased namespace contains plu
it also contains lu, so the lu entry — tested before plu in declaration
order — fires no later than the third entry and the Planned Land Use
entry is never reached; in particular for the namespace plu itself (the
prefix that process_service passes for a feature type named with a plu
colon prefix) the result is Land Use.  The original universally
quantified claim that the result is always Land Use fails when an even
earlier entry (am or elu) also matches, see the counterexample. -/
theorem C10_theme_shadowing :
    (∀ ns tn : String, containsSeq (pyLower ns).data "plu".data = true →
        determine_inspire_theme ns tn ≠ some "Planned Land Use") ∧
    (∀ tn : String, startsSeq "plu:".data (pyLower tn).data = true →
        determine_inspire_theme "plu" tn = some "Land Use") := by
  constructor
  · intro ns tn h
    have hlu : containsSeq (pyLower ns).data "lu".data = true := containsSeq_plu_lu _ h
    unfold determine_inspire_theme themesList
    cases ham : (containsSeq (pyLower ns).data "am".data ||
        startsSeq ("am" ++ ":").data (pyLower tn).data) with
    | true =>
      rw [List.find?_cons_of_pos _ (by simpa using ham)]
      simp
    | false =>
      rw [List.find?_cons_of_neg _ (by simpa using ham)]
      cases helu : (containsSeq (pyLower ns).data "elu".data ||
          startsSeq ("elu" ++ ":").data (pyLower tn).data) with
      | true =>
        rw [List.find?_cons_of_pos _ (by simpa using helu)]
        simp
      | false =>
        rw [List.find?_cons_of_neg _ (by simpa using helu)]
        rw [List.find?_cons_of_pos _ (by simp [hlu])]
        simp
  · intro tn h
    have hd : "plu:".data = 'p' :: "lu:".data := by decide
    rw [hd] at h
    obtain ⟨t1, ht1, hrest⟩ := startsSeq_shape 'p' "lu:".data (pyLower tn).data h
    have ham : (containsSeq (pyLower "plu").data "am".data ||
        startsSeq ("am" ++ ":").data (pyLower tn).data) = false := by
      rw [ht1]
      have h1 : containsSeq (pyLower "plu").data "am".data = false := by decide
      have h2 : startsSeq ("am" ++ ":").data ('p' :: t1) = false := by
        show startsSeq ('a' :: 'm' :: ':' :: []) ('p' :: t1) = false
        rw [startsSeq]
        simp [(by decide : (('a' : Char) == 'p') = false)]
      rw [h1, h2]
      rfl
    have helu : (containsSeq (pyLower "plu").data "elu".data ||
        startsSeq ("elu" ++ ":").data (pyLower tn).data) = false := by
      rw [ht1]
      have h1 : containsSeq (pyLower "plu").data "elu".data = false := by decide
      have h2 : startsSeq ("elu" ++ ":").data ('p' :: t1) = false := by
        show startsSeq ('e' :: 'l' :: 'u' :: ':' :: []) ('p' :: t1) = false
        rw [startsSeq]
        simp [(by decide : (('e' : Char) == 'p') = false)]
      rw [h1, h2]
      rfl
    unfold determine_inspire_theme themesList
    rw [List.find?_cons_of_neg _ (by simpa using ham)]
    rw [List.find?_cons_of_neg _ (by simpa using helu)]
    rw [List.find?_cons_of_pos _
      (by simp [(by decide : containsSeq (pyLower "plu").data "lu".data = true)])]
    rfl

/-- Claim C10 witness: for a plu-prefixed feature type the inferred theme
is Land Use, and a namespace containing plu never yields Planned Land
Use. -/
theorem C10_theme_shadowing_witness :
    determine_inspire_theme "plu" "plu:SpatialPlan" = some "Land Use" ∧
    determine_inspire_theme "xplu" "t" ≠ some "Planned Land Use" :=
  ⟨C10_theme_shadowing.2 "plu:SpatialPlan" (by decide),
   C10_theme_shadowing.1 "xplu" "t" (by decide)⟩

/-- Claim C10 counterexample: the namespace amplu contains plu, yet the
am entry is tested first and matches, so the result is Area Management
rather than Land Use — the unrestricted claim fails. -/
theorem C10_counterexample :
    determine_inspire_theme "amplu" "x" = some "Area Management" ∧
    containsSeq (pyLower "amplu").data "plu".data = true ∧
    some "Area Management" ≠ some "Land Use" := by
  refine ⟨by decide, by decide, by decide⟩

/-- Claim C5 witness: the threshold characterization at a concrete input. -/
theorem C5_common_threshold_witness :
    isCommonField [⟨["f", "a"], none⟩, ⟨["f"], none⟩, ⟨["c"], none⟩, ⟨["d"], none⟩] "f" :=
  C5_common_threshold.2.1

/-- Claim C7 witness: the membership characterization at a concrete input. -/
theorem C7_missing_provinces_witness :
    "Wien" ∈ missing_provinces [] ↔
      "Wien" ∈ allProvinces ∧ "Wien" ∉ provincesCovered ([] : List CombineRow) :=
  C7_missing_provinces.1 [] "Wien"
